import Mathlib

/-!
Verification development for the `era5vis` repository (ERA5 visualization
toolkit).  The Python source is shallowly embedded: labelled gridded fields
become Lean structures whose values are rational-valued functions of a
coordinate assignment, fallible Python code becomes `Except PyErr`, and the
file-handle discipline of `plot_crosssection` is tracked by an explicit
event trace.  Definitions are translated from the source files
`era5vis/crosssection.py`, `era5vis/era5.py`, `era5vis/core.py` and
`era5vis/download_era5.py`.
-/

/-- Python exception classes that occur in the embedded code paths. -/
inductive PyErr where
  | keyError (msg : String)
  | valueError (msg : String)
  | typeError (msg : String)
  | indexError (msg : String)
  | unboundLocalError (var : String)
deriving DecidableEq, Repr

/-- A dynamically typed Python value, as far as the embedded code inspects
one (`isinstance(x, int)` and the like). -/
inductive PyVal where
  | intV (i : Int)
  | strV (s : String)
  | floatV (q : ℚ)
  | noneV
deriving DecidableEq, Repr

/-- Decidable equality for `Except` results over decidable payloads. -/
instance {ε α : Type} [DecidableEq ε] [DecidableEq α] : DecidableEq (Except ε α) :=
  fun a b =>
    match a, b with
    | .error e, .error f => decidable_of_iff (e = f) (by simp)
    | .error _, .ok _ => isFalse (by simp)
    | .ok _, .error _ => isFalse (by simp)
    | .ok x, .ok y => decidable_of_iff (x = y) (by simp)

/-- `isinstance(v, int)` for the embedded value universe. -/
def PyVal.isInt : PyVal → Bool
  | .intV _ => true
  | _ => false

/-- `type(v)` rendered the way CPython prints it inside an f-string. -/
def PyVal.typeName : PyVal → String
  | .intV _ => "<class \x27int\x27>"
  | .strV _ => "<class \x27str\x27>"
  | .floatV _ => "<class \x27float\x27>"
  | .noneV => "<class \x27NoneType\x27>"

/-- `listLeads pat l` is true when `pat` occurs at the head of `l`
(character-list analogue of `str.startswith`). -/
def listLeads : List Char → List Char → Bool
  | [], _ => true
  | _ :: _, [] => false
  | a :: as, b :: bs => a = b && listLeads as bs

/-- `listHasSub pat l` is true when `pat` occurs contiguously inside `l`
(character-list analogue of Python `pat in l`). -/
def listHasSub (pat : List Char) : List Char → Bool
  | [] => pat.isEmpty
  | b :: bs => listLeads pat (b :: bs) || listHasSub pat bs

/-- Python substring test `pat in s`. -/
def strHasSub (s pat : String) : Bool :=
  listHasSub pat.data s.data

/-! ## `era5vis/download_era5.py`: month parsing -/

/-- `MONTH_NAMES` from `download_era5.py` (lines 7-20), verbatim: month
name to two-digit number, English, English short, and German. -/
def MONTH_NAMES : List (String × String) :=
  [("january", "01"), ("february", "02"), ("march", "03"), ("april", "04"),
   ("may", "05"), ("june", "06"), ("july", "07"), ("august", "08"),
   ("september", "09"), ("october", "10"), ("november", "11"), ("december", "12"),
   ("jan", "01"), ("feb", "02"), ("mar", "03"), ("apr", "04"),
   ("jun", "06"), ("jul", "07"), ("aug", "08"),
   ("sep", "09"), ("oct", "10"), ("nov", "11"), ("dec", "12"),
   ("januar", "01"), ("februar", "02"), ("märz", "03"), ("maerz", "03"),
   ("mai", "05"), ("juni", "06"), ("juli", "07"),
   ("oktober", "10"), ("dezember", "12")]

/-- The whitespace strip CPython `int` applies to its string argument. -/
def pyStripChars (s : String) : List Char :=
  ((s.data.dropWhile Char.isWhitespace).reverse.dropWhile Char.isWhitespace).reverse

/-- CPython `int(s)` on a decimal string: surrounding whitespace stripped,
one optional sign, then a nonempty run of ASCII digits (digit-group
underscores and non-ASCII digits are not exercised by this repository). -/
def pyInt? (s : String) : Option Int :=
  let cs := pyStripChars s
  let (sign, digits) :=
    match cs with
    | '-' :: rest => ((-1 : Int), rest)
    | '+' :: rest => ((1 : Int), rest)
    | _ => ((1 : Int), cs)
  if digits ≠ [] ∧ digits.all Char.isDigit then
    some (sign * (digits.foldl (fun acc d => acc * 10 + (d.toNat - '0'.toNat)) 0 : Nat))
  else none

/-- The Unicode-aware fragment of `str.lower` that the month vocabulary can
reach: ASCII letters plus the German capital umlauts. -/
def pyLowerChar (c : Char) : Char :=
  if c = 'Ä' then 'ä' else if c = 'Ö' then 'ö' else if c = 'Ü' then 'ü'
  else c.toLower

/-- `str.lower` over the embedded character fragment. -/
def pyLower (s : String) : String :=
  String.mk (s.data.map pyLowerChar)

/-- `f"{month_num:02d}"` for the range this code feeds it (1-12). -/
def twoDigit (n : Int) : String :=
  if n < 10 then "0" ++ toString n else toString n

/-- Month-name fallback of `parse_month` (`download_era5.py` lines 45-53). -/
def monthNameLookup (s : String) : Except String String :=
  match MONTH_NAMES.lookup (pyLower s) with
  | some v => .ok v
  | none =>
      .error ("Could not parse month \x27" ++ s ++ "\x27. " ++
        "Use a number (1-12) or name (e.g., \x27January\x27, \x27März\x27).")

/-- `parse_month` from `download_era5.py` (lines 23-53).  Note that the
`raise ValueError("Month number must be 1-12, ...")` inside the `try` block
is swallowed by the enclosing `except ValueError: pass`, so an in-range
number returns, and every other input falls through to the name lookup. -/
def parse_month (s : String) : Except String String :=
  match pyInt? s with
  | some n =>
      if 1 ≤ n ∧ n ≤ 12 then .ok (twoDigit n)
      else monthNameLookup s
  | none => monthNameLookup s

/-! ## The gridded data model (xarray shallow embedding)

A `DataArray` is a labelled array: a list of named axes, each carrying its
coordinate labels, together with a valuation that yields the stored value
at any coordinate assignment.  Label-based selection is then function
composition, and arithmetic is pointwise; this matches the fragment of
xarray the repository uses (`sel`, `isel`, `squeeze`, alignment and
elementwise arithmetic). -/

/-- A coordinate assignment: axis name to coordinate value. -/
abbrev Coordf := String → Int

/-- Overwrite one axis of a coordinate assignment. -/
def updateCoord (f : Coordf) (n : String) (v : Int) : Coordf :=
  fun a => if a = n then v else f a

/-- A labelled array: named axes with coordinate labels, a valuation and
attributes (`units`, `long_name`, ...). -/
structure DataArray where
  axes : List (String × List Int)
  vals : Coordf → Int
  attrs : List (String × String)

namespace DataArray

/-- The dimension names of the array. -/
def dimNames (d : DataArray) : List String := d.axes.map Prod.fst

/-- `da.sel({ax: v})` for a label present on the axis: the axis becomes a
scalar (dropped from the dims) and the valuation is fixed there.  On an
array without the dimension this is the identity (the situation xarray
reaches for dataset-level selection over variables lacking the dim). -/
def selLabel (d : DataArray) (ax : String) (v : Int) : DataArray :=
  if d.dimNames.contains ax then
    { axes := d.axes.filter (fun p => p.1 ≠ ax),
      vals := fun f => d.vals (updateCoord f ax v),
      attrs := d.attrs }
  else d

/-- `da.isel({ax: i})`: positional selection through the axis labels. -/
def iselAx (d : DataArray) (ax : String) (i : Nat) : DataArray :=
  match d.axes.lookup ax with
  | none => d
  | some ls => d.selLabel ax (ls.getD i 0)

/-- `da.squeeze(drop=True)`: fix every singleton axis at its only label. -/
def squeeze (d : DataArray) : DataArray :=
  d.axes.foldl
    (fun acc p =>
      match p with
      | (n, [v]) => acc.selLabel n v
      | _ => acc) d

/-- Fuelled loop body of `to_2d` (`crosssection.py` lines 246-251). -/
def to2dAux : Nat → DataArray → DataArray
  | 0, d => d
  | n + 1, d =>
    if d.axes.length ≤ 2 then d
    else
      match d.axes with
      | [] => d
      | (ax, _) :: _ => to2dAux n ((d.iselAx ax 0).squeeze)

/-- `to_2d` from `crosssection.py`: squeeze, then peel leading axes until
at most two dimensions remain. -/
def to_2d (d : DataArray) : DataArray :=
  let s := d.squeeze
  to2dAux s.axes.length s

/-- The label nearest to `v` (ties keep the earlier label, as numpy argmin
does); `none` on an empty axis. -/
def nearestLabel (labels : List Int) (v : Int) : Option Int :=
  labels.foldl
    (fun acc l =>
      match acc with
      | none => some l
      | some b => if |l - v| < |b - v| then some l else acc) none

/-- `da.sel({ax: v}, method="nearest")`: returns the selected array and the
coordinate actually used.  Raises when the dimension has no index. -/
def selNearest (d : DataArray) (ax : String) (v : Int) :
    Except PyErr (DataArray × Int) :=
  match d.axes.lookup ax with
  | none => .error (.keyError ("no index found for dimension " ++ ax))
  | some ls =>
    match nearestLabel ls v with
    | none => .error (.keyError ("index of dimension " ++ ax ++ " is empty"))
    | some l => .ok (d.selLabel ax l, l)

/-- Elementwise difference with xarray broadcasting: the result carries the
left operand axes followed by the extra right operand axes, its valuation
is the pointwise difference, and (xarray default) attributes are dropped. -/
def arraySub (a b : DataArray) : DataArray :=
  { axes := a.axes ++ b.axes.filter (fun p => ¬ (a.axes.map Prod.fst).contains p.1),
    vals := fun f => a.vals f - b.vals f,
    attrs := [] }

/-- `xr.align(a, b, join="exact")` succeeds exactly when the coordinate
labels agree along every dimension the two arrays share (non-shared
dimensions are never joined). -/
def alignExactOk (a b : DataArray) : Bool :=
  a.axes.all (fun p =>
    match b.axes.lookup p.1 with
    | none => true
    | some ls => decide (p.2 = ls))

/-- All coordinate assignments ranging over the grid of the given axes. -/
def assignments : List (String × List Int) → List Coordf
  | [] => [fun _ => 0]
  | (n, ls) :: rest =>
      ls.flatMap (fun v => (assignments rest).map (fun f => updateCoord f n v))

/-- The multiset of stored values of the array. -/
def gridVals (d : DataArray) : List Int := (assignments d.axes).map d.vals

end DataArray

/-- `min` of a value list (`none` on an empty array, where numpy raises). -/
def listMin : List Int → Option Int
  | [] => none
  | x :: xs => some (xs.foldl min x)

/-- `max` of a value list (`none` on an empty array, where numpy raises). -/
def listMax : List Int → Option Int
  | [] => none
  | x :: xs => some (xs.foldl max x)

/-- An xarray `Dataset`: named data variables plus indexed coordinates. -/
structure Dataset where
  data_vars : List (String × DataArray)
  coords : List (String × List Int)

namespace Dataset

/-- `ds.dims`: every dimension appearing on a variable or a coordinate. -/
def dims (ds : Dataset) : List String :=
  ((ds.data_vars.flatMap (fun p => p.2.axes.map Prod.fst)) ++
    ds.coords.map Prod.fst).dedup

/-- `ds.variables` name list: data variables and coordinate variables. -/
def varNames (ds : Dataset) : List String :=
  ds.data_vars.map Prod.fst ++ ds.coords.map Prod.fst

/-- `name in ds` (xarray `Dataset.__contains__`): data variable or
coordinate. -/
def mem (ds : Dataset) (v : String) : Bool := ds.varNames.contains v

/-- A coordinate exposed as a variable: one axis, identity valuation. -/
def coordArray (n : String) (ls : List Int) : DataArray :=
  { axes := [(n, ls)], vals := fun f => f n, attrs := [] }

/-- `ds[v]`: a data variable, or else a coordinate variable. -/
def getVar (ds : Dataset) (v : String) : Option DataArray :=
  match ds.data_vars.lookup v with
  | some da => some da
  | none => (ds.coords.lookup v).map (coordArray v)

/-- `ds.squeeze(drop=True)`: squeeze every variable and drop the
coordinates of the squeezed singleton dimensions. -/
def squeezeDrop (ds : Dataset) : Dataset :=
  { data_vars := ds.data_vars.map (fun p => (p.1, p.2.squeeze)),
    coords := ds.coords.filter (fun p => p.2.length ≠ 1) }

/-- `ds.isel({ax: i})`: positional selection on every variable; the
selected coordinate becomes a singleton. -/
def iselAx (ds : Dataset) (ax : String) (i : Nat) : Dataset :=
  { data_vars := ds.data_vars.map (fun p => (p.1, p.2.iselAx ax i)),
    coords := ds.coords.map (fun p => if p.1 = ax then (p.1, [p.2.getD i 0]) else p) }

/-- `ds.sel({ax: v})` with exact label matching: fails when the dimension
has no index or the label is absent (xarray raises `KeyError`). -/
def selExact (ds : Dataset) (ax : String) (v : Int) : Except PyErr Dataset :=
  match ds.coords.lookup ax with
  | none => .error (.keyError ("\x27" ++ ax ++ "\x27 is not a valid dimension or coordinate"))
  | some ls =>
    if ls.contains v then
      .ok { data_vars := ds.data_vars.map (fun p => (p.1, p.2.selLabel ax v)),
            coords := ds.coords.map (fun p => if p.1 = ax then (p.1, [v]) else p) }
    else .error (.keyError (toString v ++ " not found in index " ++ ax))

end Dataset

/-! ## `era5vis/era5.py`: availability checker

The dataset at `cfg.datafile` is passed in explicitly (the Python function
reads it from module configuration and re-opens the file); the
file-existence early exit is I/O outside the embedding.  Rendering of the
numpy time values and the partial-datetime match of
`ds.sel(valid_time=time)` are abstracted to string-rendered coordinate
labels. -/

/-- Python `repr` of a list of strings, as an f-string renders
`list(ds.data_vars)`. -/
def pyStrListRepr (l : List String) : String :=
  "[" ++ String.intercalate ", " (l.map (fun s => "\x27" ++ s ++ "\x27")) ++ "]"

/-- Rendering of a numpy coordinate-value array inside an f-string. -/
def pyQListRepr (l : List Int) : String :=
  "[" ++ String.intercalate " " (l.map toString) ++ "]"

/-- Level check of `check_data_availability` (`era5.py` lines 26-31). -/
def checkLevel (ds : Dataset) (level : Option Int) : Except PyErr Unit :=
  match level with
  | none => .ok ()
  | some lvl =>
    if ¬ ds.dims.contains "pressure_level" then
      .error (.valueError "Dataset does not have \x27pressure_level\x27 dimension")
    else
      let lvls := (ds.coords.lookup "pressure_level").getD []
      if ¬ lvls.contains lvl then
        .error (.valueError ("Pressure level " ++ toString lvl ++
          " hPa not found in dataset. Available levels: " ++ pyQListRepr lvls))
      else .ok ()

/-- Time-string check of `check_data_availability` (`era5.py` lines 34-39):
`ds.sel(valid_time=time)` succeeds when the string resolves against the
time index. -/
def checkTime (ds : Dataset) (time : Option String) : Except PyErr Unit :=
  match time with
  | none => .ok ()
  | some t =>
    let times := (ds.coords.lookup "valid_time").getD []
    if ¬ times.any (fun q => toString q == t) then
      .error (.valueError ("Time \x27" ++ t ++ "\x27 not found in dataset. " ++
        "Available time range: " ++ toString (times.headD 0) ++ " to " ++
        toString (times.getLastD 0)))
    else .ok ()

/-- Time-index check of `check_data_availability` (`era5.py` lines 42-47):
the `isinstance(time_ind, int)` test comes first, then the range test
against `len(ds.valid_time)`. -/
def checkTimeInd (ds : Dataset) (time_ind : Option PyVal) : Except PyErr Unit :=
  match time_ind with
  | none => .ok ()
  | some v =>
    match v with
    | .intV i =>
      let n : Int := ((ds.coords.lookup "valid_time").getD []).length
      if i < 0 ∨ n ≤ i then
        .error (.valueError ("Time index " ++ toString i ++
          " out of range. Valid range: 0 to " ++ toString (n - 1)))
      else .ok ()
    | w =>
      .error (.typeError ("time_ind must be an integer, got " ++ w.typeName))

/-- `check_data_availability` from `era5.py` (lines 11-47): parameter
membership in `ds.variables` (message listing `ds.data_vars`), then level,
time string and time index, in source order, first failure wins. -/
def check_data_availability (ds : Dataset) (param : String) (level : Option Int)
    (time : Option String) (time_ind : Option PyVal) : Except PyErr Unit :=
  if ¬ ds.varNames.contains param then
    .error (.valueError ("Parameter \x27" ++ param ++ "\x27 not found in dataset. " ++
      "Available parameters: " ++ pyStrListRepr (ds.data_vars.map Prod.fst)))
  else
    match checkLevel ds level with
    | .error e => .error e
    | .ok () =>
      match checkTime ds time with
      | .error e => .error e
      | .ok () => checkTimeInd ds time_ind

/-! ## `era5vis/crosssection.py`: the cross-section / anomaly pipeline

`plot_crosssection` is embedded stage by stage in source order.  Opening a
NetCDF path yields the corresponding `Dataset` value, which is passed in
directly; opens and closes of the three dataset handles (case, climatology,
terrain) are recorded in an event trace so that the handle discipline is
provable.  Pure rendering calls (contourf, quiver, colorbar, figure/axis
furniture) are outside the embedding; everything the renderer consumes
(plotted field, normalization bounds, palette, 2D sections, wind arrays,
terrain profile, title) is returned in `PlotResult`. -/

/-- Module constants of `crosssection.py` (lines 52-76). -/
def G0 : ℚ := 9.80665

def LEVEL_DIM : String := "pressure_level"

def LAT_DIM : String := "latitude"

def LON_DIM : String := "longitude"

def MONTH_DIM : String := "month"

def GEO_VAR : String := "z"

def U_VAR : String := "u"

def V_VAR : String := "v"

def W_VAR : String := "w"

def CLIM_REF_PERIOD : String := "1991–2020"

def TERRAIN_VAR : String := "z"

/-- A dataset-handle event: the embedding of `xr.open_dataset(...)` and
`ds.close()` on the tagged handle. -/
inductive Event where
  | openD (tag : String)
  | closeD (tag : String)
deriving DecidableEq, Repr

/-- `drop_time` from `crosssection.py` (lines 214-220). -/
def drop_time (ds : Dataset) : Dataset :=
  if ds.dims.contains "valid_time" then (ds.iselAx "valid_time" 0).squeezeDrop
  else if ds.dims.contains "time" then (ds.iselAx "time" 0).squeezeDrop
  else ds

/-- `get_case_month_year` from `crosssection.py` (lines 223-233).  Time
coordinate values are embedded as `year * 100 + month` stamps; the pandas
datetime accessors `.dt.month` / `.dt.year` become `% 100` and `/ 100`.
An empty time coordinate makes the accessor fail, embedded as an error. -/
def get_case_month_year (ds : Dataset) : Except PyErr (Int × Int) :=
  match (match ds.coords.lookup "valid_time" with
         | some l => some l
         | none => ds.coords.lookup "time") with
  | none => .error (.keyError "Case dataset has no \x27valid_time\x27 or \x27time\x27 coordinate.")
  | some [] => .error (.indexError "time coordinate is empty")
  | some (t0 :: _) => .ok (⌊t0⌋ % 100, ⌊t0⌋ / 100)

/-- Attribute access `da.attrs.get(k) or ""`. -/
def attrOr (d : DataArray) (k : String) : String := (d.attrs.lookup k).getD ""

/-- `pretty_var_name` from `crosssection.py` (lines 236-243). -/
def pretty_var_name (var : String) (ds_case2 ds_clim : Dataset) : String :=
  let fromDs : Dataset → String := fun ds =>
    match ds.getVar var with
    | some da =>
        if attrOr da "long_name" ≠ "" then attrOr da "long_name"
        else attrOr da "standard_name"
    | none => ""
  let l1 := if ds_case2.mem var then fromDs ds_case2 else ""
  let long_name := if l1 = "" ∧ ds_clim.mem var then fromDs ds_clim else l1
  if long_name = "" then var else var ++ " – " ++ long_name

/-- Unit lookup of `plot_crosssection` (lines 134-138). -/
def unitsOf (var : String) (ds_case2 ds_clim : Dataset) : String :=
  if ds_case2.mem var then
    match ds_case2.getVar var with
    | some da => (da.attrs.lookup "units").getD ""
    | none => ""
  else if ds_clim.mem var then
    match ds_clim.getVar var with
    | some da => (da.attrs.lookup "units").getD ""
    | none => ""
  else ""

/-- `calendar.month_abbr` indexing (out-of-range indices, which a real
datetime month never produces, are abstracted to `""`). -/
def monthAbbrAt (m : Int) : String :=
  ["", "Jan", "Feb", "Mar", "Apr", "May", "Jun", "Jul", "Aug", "Sep", "Oct",
   "Nov", "Dec"].getD m.toNat ""

/-- Climatology-for-month step of `plot_crosssection` (lines 113-117):
select the case month from the climatology file, squeeze, and require the
geopotential background variable. -/
def climForMonth (climfile : Dataset) (caseMonth : Int) : Except PyErr Dataset :=
  match climfile.selExact MONTH_DIM caseMonth with
  | .error e => .error e
  | .ok d =>
    let ds_clim := d.squeezeDrop
    if ¬ ds_clim.mem GEO_VAR then
      .error (.keyError ("\x27" ++ GEO_VAR ++ "\x27 must exist in climatology file for the background."))
    else .ok ds_clim

/-- Basic variable checks of `plot_crosssection` (lines 119-123), in
source order: the case-file check precedes the climatology-file check. -/
def basicChecks (field var : String) (ds_case2 ds_clim : Dataset) :
    Except PyErr Unit :=
  if (field = "case" ∨ field = "anomaly") ∧ ¬ ds_case2.mem var then
    .error (.keyError ("\x27" ++ var ++ "\x27 not found in case file."))
  else if (field = "clim" ∨ field = "anomaly") ∧ ¬ ds_clim.mem var then
    .error (.keyError ("\x27" ++ var ++ "\x27 not found in climatology file (needed for field=\x27" ++
      field ++ "\x27)."))
  else .ok ()

/-- Background extraction of `plot_crosssection` (lines 126-128):
climatological geopotential, nearest-sliced both ways.  The elementwise
rescale by the positive constant `G0` (geopotential to height, display
shading only, never inspected downstream) is applied at render time. -/
def background (ds_clim : Dataset) (lat lon : Int) :
    Except PyErr (DataArray × DataArray) :=
  match ds_clim.getVar GEO_VAR with
  | none => .error (.keyError GEO_VAR)
  | some zv =>
    let z_bg := zv
    match z_bg.selNearest LAT_DIM lat with
    | .error e => .error e
    | .ok (zl, _) =>
      match z_bg.selNearest LON_DIM lon with
      | .error e => .error e
      | .ok (zo, _) => .ok (zl.to_2d, zo.to_2d)

/-- The error message xarray raises when `join="exact"` alignment fails. -/
def alignErrorMsg : String :=
  "cannot align objects with join=\x27exact\x27 where index/labels/sizes are not equal"

/-- Field/mode resolution of `plot_crosssection` (lines 140-154): the
`wspd` anomaly is silently redirected to case mode; anomaly aligns the two
single-variable datasets with `join="exact"` and subtracts elementwise. -/
def computeField (field var : String) (ds_case2 ds_clim : Dataset) :
    Except PyErr (DataArray × String) :=
  let effective_field := if field = "anomaly" ∧ var = "wspd" then "case" else field
  if effective_field = "case" then
    match ds_case2.getVar var with
    | some da => .ok (da, "CASE")
    | none => .error (.keyError var)
  else if effective_field = "clim" then
    match ds_clim.getVar var with
    | some da => .ok (da, "CLIM")
    | none => .error (.keyError var)
  else
    match ds_case2.data_vars.lookup var, ds_clim.data_vars.lookup var with
    | some case_a, some clim_a =>
        if case_a.alignExactOk clim_a then
          .ok (case_a.arraySub clim_a, "ANOMALY")
        else .error (.valueError alignErrorMsg)
    | _, _ => .error (.keyError var)

/-- Color scaling of `plot_crosssection` (lines 156-164): anomaly mode is
symmetric about zero at the larger of `|min|` and `|max|`; the other modes
run from zero to the maximum, `Blues` for `wspd`, `viridis` otherwise.
Reducing an empty array raises (numpy). -/
def colorScale (modeText var : String) (fld : DataArray) :
    Except PyErr (Int × Int × String) :=
  match listMin fld.gridVals, listMax fld.gridVals with
  | some mn, some mx =>
    if modeText = "ANOMALY" then
      let vmax := max |mn| |mx|
      .ok (-vmax, vmax, "coolwarm")
    else
      .ok (0, mx, if var = "wspd" then "Blues" else "viridis")
  | _, _ => .error (.valueError "zero-size array to reduction operation")

/-- 2D section extraction of `plot_crosssection` (lines 166-171). -/
def sections (fld : DataArray) (lat lon : Int) :
    Except PyErr (DataArray × DataArray × Int × Int) :=
  match fld.selNearest LAT_DIM lat with
  | .error e => .error e
  | .ok (fl, lat_used) =>
    match fld.selNearest LON_DIM lon with
    | .error e => .error e
    | .ok (fo, lon_used) => .ok (fl.to_2d, fo.to_2d, lat_used, lon_used)

/-- Wind-arrow sourcing of `plot_crosssection` (lines 173-181): only for
`wspd`, always from the case dataset, `u` then `v` then `w` checked in
order. -/
def windCheck (var : String) (ds_case2 : Dataset) :
    Except PyErr (Option (DataArray × DataArray × DataArray)) :=
  if var = "wspd" then
    if ¬ ds_case2.mem U_VAR then
      .error (.keyError ("Case file missing \x27" ++ U_VAR ++ "\x27 required for wind arrows (wspd)."))
    else if ¬ ds_case2.mem V_VAR then
      .error (.keyError ("Case file missing \x27" ++ V_VAR ++ "\x27 required for wind arrows (wspd)."))
    else if ¬ ds_case2.mem W_VAR then
      .error (.keyError ("Case file missing \x27" ++ W_VAR ++ "\x27 required for wind arrows (wspd)."))
    else
      match ds_case2.getVar U_VAR, ds_case2.getVar V_VAR, ds_case2.getVar W_VAR with
      | some u, some v, some w => .ok (some (u, v, w))
      | _, _, _ => .error (.keyError "wind variables vanished")
  else .ok none

/-- `load_terrain_lines` from `crosssection.py` (lines 300-330): open the
terrain dataset, drop time, require the terrain variable (closing the
handle before raising, as the source does), slice the height field both
ways and return the two 1D profiles as (coordinate, height) pairs; the
handle is closed before the successful return.  A failure after the
variable check propagates without a close, as in the source.  The
`height_to_pressure_hpa` conversion of the profile is real-valued display
work applied pointwise at render time and is kept as the separate
definition below. -/
def load_terrain_lines (terrain : Dataset) (lat_used lon_used : Int) :
    Except PyErr (List (Int × Int) × List (Int × Int)) × List Event :=
  let ev := [Event.openD "terrain"]
  let ds_terr2 := drop_time terrain
  if ¬ ds_terr2.mem TERRAIN_VAR then
    (.error (.keyError ("Terrain file does not contain variable \x27" ++ TERRAIN_VAR ++ "\x27.")),
     ev ++ [Event.closeD "terrain"])
  else
    match ds_terr2.getVar TERRAIN_VAR with
    | none => (.error (.keyError TERRAIN_VAR), ev)
    | some terr_m =>
      match terr_m.selNearest LAT_DIM lat_used with
      | .error e => (.error e, ev)
      | .ok (twe, _) =>
        match terr_m.selNearest LON_DIM lon_used with
        | .error e => (.error e, ev)
        | .ok (tsn, _) =>
          let twe2 := twe.to_2d
          let tsn2 := tsn.to_2d
          match twe2.axes.lookup LON_DIM with
          | none => (.error (.keyError LON_DIM), ev)
          | some lons =>
            match tsn2.axes.lookup LAT_DIM with
            | none => (.error (.keyError LAT_DIM), ev)
            | some lats =>
              (.ok (lons.map (fun l => (l, twe2.vals (updateCoord (fun _ => 0) LON_DIM l))),
                    lats.map (fun l => (l, tsn2.vals (updateCoord (fun _ => 0) LAT_DIM l)))),
               ev ++ [Event.closeD "terrain"])

/-- The optional terrain step of `plot_crosssection` (lines 184-186). -/
def terrainStep (terrainfile : Option Dataset) (lat_used lon_used : Int) :
    Except PyErr (Option (List (Int × Int) × List (Int × Int))) × List Event :=
  match terrainfile with
  | none => (.ok none, [])
  | some t =>
    match load_terrain_lines t lat_used lon_used with
    | (.error e, ev) => (.error e, ev)
    | (.ok lines, ev) => (.ok (some lines), ev)

/-- Title composition of `plot_crosssection` (lines 188-191): mode label,
month/year (case and anomaly) or month alone (climatology), climatology
reference period (omitted in pure case mode), pretty variable name; empty
pieces dropped. -/
def titleLineOf (mode_text : String) (case_month case_year : Int)
    (pretty_name : String) : String :=
  let month_short := monthAbbrAt case_month
  let month_year_text := month_short ++ " " ++ toString case_year
  let when_text :=
    if mode_text = "CASE" ∨ mode_text = "ANOMALY" then month_year_text else month_short
  let ref_text :=
    if mode_text ≠ "CASE" then "Model climate " ++ CLIM_REF_PERIOD else ""
  String.intercalate " • "
    (([mode_text, when_text, ref_text, pretty_name]).filter (fun p => p ≠ ""))

/-- Colorbar label of `plot_crosssection` (line 193). -/
def cbLabelOf (pretty_name units : String) : String :=
  if units ≠ "" then pretty_name ++ " [" ++ units ++ "]" else pretty_name

/-- Everything `plot_crosssection` hands to the rendering backend. -/
structure PlotResult where
  fld : DataArray
  modeText : String
  vmin : Int
  vmax : Int
  cmap : String
  fldLat : DataArray
  fldLon : DataArray
  latUsed : Int
  lonUsed : Int
  wind : Option (DataArray × DataArray × DataArray)
  terrain : Option (List (Int × Int) × List (Int × Int))
  titleLine : String
  cbLabel : String
  saved : Bool

/-- `plot_crosssection` from `crosssection.py` (lines 79-207), stage by
stage in source order, paired with the trace of dataset-handle events.
Opens happen where the source calls `xr.open_dataset`; the two closes at
lines 205-206 run only on the single return path, so an exception leaves
the case and climatology handles open, exactly as in the source. -/
def plot_crosssection (var : String) (lat lon : Int) (casefile climfile : Dataset)
    (field : String) (terrainfile : Option Dataset) (savepath : Option String) :
    Except PyErr PlotResult × List Event :=
  if ¬ (field = "anomaly" ∨ field = "case" ∨ field = "clim") then
    (.error (.valueError "field must be one of: \x27anomaly\x27, \x27case\x27, \x27clim\x27."), [])
  else
    let tr0 := [Event.openD "case"]
    let ds_case2 := drop_time casefile
    match get_case_month_year casefile with
    | .error e => (.error e, tr0)
    | .ok (case_month, case_year) =>
      let tr1 := tr0 ++ [Event.openD "clim"]
      match climForMonth climfile case_month with
      | .error e => (.error e, tr1)
      | .ok ds_clim =>
        match basicChecks field var ds_case2 ds_clim with
        | .error e => (.error e, tr1)
        | .ok () =>
          match background ds_clim lat lon with
          | .error e => (.error e, tr1)
          | .ok (_z_lat, _z_lon) =>
            let pretty_name := pretty_var_name var ds_case2 ds_clim
            let units := unitsOf var ds_case2 ds_clim
            match computeField field var ds_case2 ds_clim with
            | .error e => (.error e, tr1)
            | .ok (fld, mode_text) =>
              match colorScale mode_text var fld with
              | .error e => (.error e, tr1)
              | .ok (vmin, vmax, cmap) =>
                match sections fld lat lon with
                | .error e => (.error e, tr1)
                | .ok (fld_lat, fld_lon, lat_used, lon_used) =>
                  match windCheck var ds_case2 with
                  | .error e => (.error e, tr1)
                  | .ok wind =>
                    match terrainStep terrainfile lat_used lon_used with
                    | (.error e, trT) => (.error e, tr1 ++ trT)
                    | (.ok terrain, trT) =>
                      (.ok { fld := fld, modeText := mode_text, vmin := vmin, vmax := vmax,
                             cmap := cmap, fldLat := fld_lat, fldLon := fld_lon,
                             latUsed := lat_used, lonUsed := lon_used, wind := wind,
                             terrain := terrain,
                             titleLine := titleLineOf mode_text case_month case_year pretty_name,
                             cbLabel := cbLabelOf pretty_name units,
                             saved := savepath.isSome },
                       tr1 ++ trT ++ [Event.closeD "case", Event.closeD "clim"])

/-! ## `era5vis/core.py` and `horiz_cross_section` -/

/-- `horiz_cross_section` from `era5.py` (lines 50-81): select the
parameter at the given pressure level, then by time string (`sel`) or time
index (`isel`, Python negative indexing included), else `TypeError`.  The
level is the raw argument the caller handed over; passing `None` makes the
underlying selection fail. -/
def horiz_cross_section (ds : Dataset) (param : String) (lvl : Option Int)
    (time : PyVal) : Except PyErr DataArray :=
  match ds.getVar param with
  | none => .error (.keyError param)
  | some da =>
    match lvl with
    | none => .error (.keyError "None is not a valid pressure level")
    | some l =>
      if ((da.axes.lookup "pressure_level").getD []).contains l then
        let da2 := da.selLabel "pressure_level" l
        let times := (da2.axes.lookup "valid_time").getD []
        match time with
        | .strV s =>
          match times.find? (fun q => toString q == s) with
          | some q => .ok (da2.selLabel "valid_time" q)
          | none => .error (.keyError s)
        | .intV i =>
          if 0 ≤ i ∧ i < times.length then
            .ok (da2.selLabel "valid_time" (times.getD i.toNat 0))
          else if -(times.length : Int) ≤ i ∧ i < 0 then
            .ok (da2.selLabel "valid_time" (times.getD (times.length - (-i).toNat) 0))
          else .error (.indexError ("index " ++ toString i ++ " is out of bounds"))
        | _ => .error (.typeError "time must be a time format string or integer")
      else .error (.keyError (toString l))

/-- `write_html` from `core.py` (lines 35-82): availability check, then the
extraction branch — `time` takes precedence, else `time_ind`; when both are
`None` no branch assigns `hcross`, and the later use of `hcross` at the
plotting call fails with Python `UnboundLocalError`.  Directory creation
and the HTML templating I/O are outside the embedding; the produced page is
represented by its file name. -/
def write_html (ds : Dataset) (param : String) (level : Option Int)
    (time : Option String) (time_ind : Option PyVal) : Except PyErr String :=
  match check_data_availability ds param level time time_ind with
  | .error e => .error e
  | .ok () =>
    let hcross : Except PyErr (Option DataArray) :=
      match time with
      | some t => (horiz_cross_section ds param level (.strV t)).map some
      | none =>
        match time_ind with
        | some ti => (horiz_cross_section ds param level ti).map some
        | none => .ok none
    match hcross with
    | .error e => .error e
    | .ok none => .error (.unboundLocalError "hcross")
    | .ok (some _) => .ok "index.html"

/-! ## `height_to_pressure_hpa` (`crosssection.py` lines 282-297)

The numpy computation is embedded over the reals.  `np.maximum(z, 0)` is
`max z 0`; the power is the real power.  For heights beyond `T0 / L`
(≈ 44331 m) the base is negative and numpy `**` with a non-integer float
exponent produces `nan`; the embedding returns `none` there, so `some p`
means the computation produced the number `p`. -/

open Classical in
/-- `height_to_pressure_hpa`: standard-atmosphere conversion of height (m)
to pressure (hPa), with clamping at zero height. -/
noncomputable def height_to_pressure_hpa (z_m : ℝ) : Option ℝ :=
  let T0 : ℝ := 288.15
  let L : ℝ := 0.0065
  let g : ℝ := 9.80665
  let M : ℝ := 0.0289644
  let R : ℝ := 8.3144598
  let p0 : ℝ := 100000.0
  let z := max z_m 0
  let exponent := (g * M) / (R * L)
  let base := 1.0 - (L * z / T0)
  if base < 0 then none else some (p0 * base ^ exponent / 100.0)

/-! ## Concrete witness data

Small datasets shaped like the files the repository reads: a one-timestep
case file, a monthly climatology with the geopotential background, and
variants used by individual witnesses.  Time stamps use the
`year * 100 + month` encoding of `get_case_month_year`. -/

/-- Fallback array used only to totalize projections in witnesses. -/
def dfltArray : DataArray := { axes := [], vals := fun _ => 0, attrs := [] }

/-- The empty dataset. -/
def emptyDS : Dataset := { data_vars := [], coords := [] }

/-- A case file: variable `t` at one timestep (March 2024). -/
def caseDS : Dataset :=
  { data_vars := [("t",
      { axes := [("valid_time", [202403]), ("pressure_level", [850, 500]),
                 ("latitude", [10, 20]), ("longitude", [30, 40])],
        vals := fun f => f "latitude" + f "longitude",
        attrs := [("units", "K"), ("long_name", "Temperature")] })],
    coords := [("valid_time", [202403]), ("pressure_level", [850, 500]),
               ("latitude", [10, 20]), ("longitude", [30, 40])] }

/-- A monthly climatology carrying the geopotential background `z` and the
variable `t` on the same grid as `caseDS`. -/
def climDS : Dataset :=
  { data_vars :=
      [("z", { axes := [("month", [3]), ("pressure_level", [850, 500]),
                        ("latitude", [10, 20]), ("longitude", [30, 40])],
               vals := fun f => f "pressure_level" * 10, attrs := [] }),
       ("t", { axes := [("month", [3]), ("pressure_level", [850, 500]),
                        ("latitude", [10, 20]), ("longitude", [30, 40])],
               vals := fun f => f "pressure_level", attrs := [("units", "K")] })],
    coords := [("month", [3]), ("pressure_level", [850, 500]),
               ("latitude", [10, 20]), ("longitude", [30, 40])] }

/-- A case file that lacks the variable `t` but is otherwise well formed. -/
def caseNoT : Dataset := { data_vars := [], coords := caseDS.coords }

/-- A case file for the wind-speed special case: `wspd` plus the arrow
components `u`, `v`, `w`. -/
def caseW : Dataset :=
  { data_vars :=
      [("wspd", { axes := [("valid_time", [202403]), ("pressure_level", [850, 500]),
                           ("latitude", [10, 20]), ("longitude", [30, 40])],
                  vals := fun f => f "latitude", attrs := [] }),
       ("u", { axes := [("valid_time", [202403]), ("pressure_level", [850, 500]),
                        ("latitude", [10, 20]), ("longitude", [30, 40])],
               vals := fun _ => 1, attrs := [] }),
       ("v", { axes := [("valid_time", [202403]), ("pressure_level", [850, 500]),
                        ("latitude", [10, 20]), ("longitude", [30, 40])],
               vals := fun _ => 2, attrs := [] }),
       ("w", { axes := [("valid_time", [202403]), ("pressure_level", [850, 500]),
                        ("latitude", [10, 20]), ("longitude", [30, 40])],
               vals := fun _ => 3, attrs := [] })],
    coords := caseDS.coords }

/-- A climatology carrying `z` and `wspd` for the wind-speed witness. -/
def climW : Dataset :=
  { data_vars :=
      [("z", { axes := [("month", [3]), ("pressure_level", [850, 500]),
                        ("latitude", [10, 20]), ("longitude", [30, 40])],
               vals := fun f => f "pressure_level" * 10, attrs := [] }),
       ("wspd", { axes := [("month", [3]), ("pressure_level", [850, 500]),
                           ("latitude", [10, 20]), ("longitude", [30, 40])],
                  vals := fun f => f "latitude" / 2, attrs := [] })],
    coords := climDS.coords }

/-- The case `t` array after the time drop, as `plot_crosssection` sees it. -/
def caseT2 : DataArray := ((drop_time caseDS).data_vars.lookup "t").getD dfltArray

/-- The climatology slice of `climDS` at the case month of `caseDS`. -/
def climDS3 : Dataset :=
  match climForMonth climDS 3 with
  | .ok d => d
  | .error _ => emptyDS

/-- The climatology `t` array inside `climDS3`. -/
def climT3 : DataArray := (climDS3.data_vars.lookup "t").getD dfltArray

/-- The anomaly field of the witness pair. -/
def anomFld : DataArray := caseT2.arraySub climT3

/-- The background pair of the witness climatology at (10, 30). -/
def bgPair : DataArray × DataArray :=
  match background climDS3 10 30 with
  | .ok p => p
  | .error _ => (dfltArray, dfltArray)

/-- The 2D sections of the witness anomaly field at (10, 30). -/
def secQuad : DataArray × DataArray × Int × Int :=
  match sections anomFld 10 30 with
  | .ok q => q
  | .error _ => (dfltArray, dfltArray, 0, 0)
theorem listLeads_refl (l : List Char) : listLeads l l = true := by
  induction l with
  | nil => rfl
  | cons a as ih => simp [listLeads, ih]

theorem listHasSub_of_leads (pat l : List Char) (h : listLeads pat l = true) :
    listHasSub pat l = true := by
  cases l with
  | nil =>
    cases pat with
    | nil => rfl
    | cons a as => simp [listLeads] at h
  | cons b bs => simp [listHasSub, h]

theorem listHasSub_self (l : List Char) : listHasSub l l = true :=
  listHasSub_of_leads l l (listLeads_refl l)

theorem listHasSub_append_left (pat l : List Char) (a : List Char)
    (h : listHasSub pat l = true) : listHasSub pat (a ++ l) = true := by
  induction a with
  | nil => simpa using h
  | cons x xs ih => simp [listHasSub, ih]

theorem listLeads_append (pat rest : List Char) :
    listLeads pat (pat ++ rest) = true := by
  induction pat with
  | nil => rfl
  | cons a as ih => simp [listLeads, ih]

theorem listHasSub_append_right (pat rest : List Char) :
    listHasSub pat (pat ++ rest) = true :=
  listHasSub_of_leads _ _ (listLeads_append pat rest)

/-- A string contains any of its bracketing decompositions: `pat` occurs in
`a ++ pat ++ b`. -/
theorem strHasSub_sandwich (a pat b : String) :
    strHasSub (a ++ pat ++ b) pat = true := by
  show listHasSub pat.data (a ++ pat ++ b).data = true
  have h1 : (a ++ pat ++ b).data = a.data ++ (pat.data ++ b.data) := by
    simp [String.data_append]
  rw [h1]
  exact listHasSub_append_left _ _ _ (listHasSub_append_right _ _)

/-- A string contains its own suffix: `pat` occurs in `a ++ pat`. -/
theorem strHasSub_suffix (a pat : String) :
    strHasSub (a ++ pat) pat = true := by
  show listHasSub pat.data (a ++ pat).data = true
  rw [String.data_append]
  exact listHasSub_append_left _ _ _ (listHasSub_self _)

/-- Lift an established substring occurrence over a further left context. -/
theorem strHasSub_extend_left (a s pat : String)
    (h : strHasSub s pat = true) : strHasSub (a ++ s) pat = true := by
  show listHasSub pat.data (a ++ s).data = true
  rw [String.data_append]
  exact listHasSub_append_left _ _ _ h

theorem lookup_isSome_of_keys_contains {α : Type} (l : List (String × α)) (k : String)
    (h : (l.map Prod.fst).contains k = true) : (l.lookup k).isSome = true := by
  induction l with
  | nil => simp at h
  | cons p rest ih =>
    by_cases hk : k = p.1
    · simp [List.lookup, hk]
    · have h2 : (rest.map Prod.fst).contains k = true := by
        simp only [List.map_cons, List.contains_cons] at h
        rcases Bool.or_eq_true_iff.mp h with h1 | h1
        · exact absurd (by simpa using h1) hk
        · exact h1
      simp only [List.lookup]
      have : (k == p.1) = false := by simpa using hk
      rw [this]
      exact ih h2

theorem listLeads_extend (pat l b : List Char) (h : listLeads pat l = true) :
    listLeads pat (l ++ b) = true := by
  induction pat generalizing l with
  | nil => rfl
  | cons a as ih =>
    cases l with
    | nil => simp [listLeads] at h
    | cons x xs =>
      simp only [listLeads, Bool.and_eq_true, decide_eq_true_eq] at h
      simp [listLeads, h.1, ih xs h.2]

theorem listHasSub_extend_right (pat l b : List Char)
    (h : listHasSub pat l = true) : listHasSub pat (l ++ b) = true := by
  induction l with
  | nil =>
    simp only [listHasSub, List.isEmpty_iff] at h
    subst h
    cases b with
    | nil => rfl
    | cons x xs => simp [listHasSub, listLeads]
  | cons x xs ih =>
    simp only [listHasSub, Bool.or_eq_true] at h
    rcases h with h | h
    · simpa [listHasSub] using Or.inl (listLeads_extend pat (x :: xs) b h)
    · simpa [listHasSub] using Or.inr (ih h)

theorem strHasSub_extend_right (s b pat : String)
    (h : strHasSub s pat = true) : strHasSub (s ++ b) pat = true := by
  show listHasSub pat.data (s ++ b).data = true
  rw [String.data_append]
  exact listHasSub_extend_right _ _ _ h

/-! ## Claim theorems -/

/-- C8: `parse_month` maps "3", "March" and "März" (month names
case-insensitively, English and German) to "03"; "13" and "Smarch" raise a
parse error; every integer input in 1-12 yields the zero-padded two-digit
month, and an input that is neither such an integer nor a known month name
raises. -/
theorem parse_month_claim :
    parse_month "3" = .ok "03"
  ∧ parse_month "March" = .ok "03"
  ∧ parse_month "März" = .ok "03"
  ∧ parse_month "MÄRZ" = .ok "03"
  ∧ (∃ e, parse_month "13" = .error e)
  ∧ (∃ e, parse_month "Smarch" = .error e)
  ∧ (∀ s n, pyInt? s = some n → 1 ≤ n → n ≤ 12 → parse_month s = .ok (twoDigit n))
  ∧ (∀ s, (∀ n, pyInt? s = some n → n < 1 ∨ 12 < n) →
      MONTH_NAMES.lookup (pyLower s) = none → ∃ e, parse_month s = .error e) := by
  refine ⟨by decide, by decide, by decide, by decide, ⟨_, rfl⟩, ⟨_, rfl⟩, ?_, ?_⟩
  · intro s n h h1 h2
    simp only [parse_month, h, if_pos (And.intro h1 h2)]
  · intro s hn hname
    match hp : pyInt? s with
    | none =>
        refine ⟨"Could not parse month \x27" ++ s ++ "\x27. " ++
          "Use a number (1-12) or name (e.g., \x27January\x27, \x27März\x27).", ?_⟩
        simp only [parse_month, hp, monthNameLookup, hname]
    | some n =>
        have hout : ¬ (1 ≤ n ∧ n ≤ 12) := by
          rcases hn n hp with h | h <;> omega
        refine ⟨"Could not parse month \x27" ++ s ++ "\x27. " ++
          "Use a number (1-12) or name (e.g., \x27January\x27, \x27März\x27).", ?_⟩
        simp only [parse_month, hp, if_neg hout, monthNameLookup, hname]

/-- Witness for C8 at the concrete input "07". -/
theorem parse_month_claim_witness : parse_month "07" = Except.ok (twoDigit 7) :=
  parse_month_claim.2.2.2.2.2.2.1 "07" 7 (by decide) (by decide) (by decide)

/-- C4: `check_data_availability` rejects a variable absent from the
dataset with an error listing the available parameters, and rejects a
pressure level absent from the `pressure_level` coordinate (for a variable
that does exist) with an error whose message lists the actually available
levels. -/
theorem check_data_availability_lists_alternatives (ds : Dataset) :
    (∀ param level time time_ind,
        ds.varNames.contains param = false →
        check_data_availability ds param level time time_ind =
          .error (.valueError ("Parameter \x27" ++ param ++ "\x27 not found in dataset. " ++
            "Available parameters: " ++ pyStrListRepr (ds.data_vars.map Prod.fst))) ∧
        strHasSub ("Parameter \x27" ++ param ++ "\x27 not found in dataset. " ++
            "Available parameters: " ++ pyStrListRepr (ds.data_vars.map Prod.fst))
          (pyStrListRepr (ds.data_vars.map Prod.fst)) = true ∧
        strHasSub ("Parameter \x27" ++ param ++ "\x27 not found in dataset. " ++
            "Available parameters: " ++ pyStrListRepr (ds.data_vars.map Prod.fst)) param = true)
  ∧ (∀ param lvl lvls time time_ind,
        ds.varNames.contains param = true →
        ds.dims.contains "pressure_level" = true →
        ds.coords.lookup "pressure_level" = some lvls →
        lvls.contains lvl = false →
        check_data_availability ds param (some lvl) time time_ind =
          .error (.valueError ("Pressure level " ++ toString lvl ++
            " hPa not found in dataset. Available levels: " ++ pyQListRepr lvls)) ∧
        strHasSub ("Pressure level " ++ toString lvl ++
            " hPa not found in dataset. Available levels: " ++ pyQListRepr lvls)
          (pyQListRepr lvls) = true) := by
  constructor
  · intro param level time time_ind h
    refine ⟨?_, ?_, ?_⟩
    · have hc : ¬ ds.varNames.contains param = true := by rw [h]; simp
      simp only [check_data_availability, if_pos hc]
    · exact strHasSub_suffix _ _
    · have h0 : strHasSub ("Parameter \x27" ++ param ++ "\x27 not found in dataset. ") param =
          true :=
        strHasSub_sandwich "Parameter \x27" param "\x27 not found in dataset. "
      have h1 := strHasSub_extend_right _ "Available parameters: " _ h0
      exact strHasSub_extend_right _ (pyStrListRepr (ds.data_vars.map Prod.fst)) _ h1
  · intro param lvl lvls time time_ind hp hdim hcl hno
    refine ⟨?_, strHasSub_suffix _ _⟩
    have hc : ¬ ¬ ds.varNames.contains param = true := by rw [hp]; simp
    have hd : ¬ ¬ ds.dims.contains "pressure_level" = true := by rw [hdim]; simp
    simp only [check_data_availability, if_neg hc, checkLevel, hcl, Option.getD_some]
    rw [if_neg hd, if_pos (by rw [hno]; simp : ¬ lvls.contains lvl = true)]

/-- Witness for C4 on the concrete dataset `caseDS`: both a missing
variable and a missing pressure level produce errors that list the
alternatives. -/
theorem check_data_availability_lists_alternatives_witness :
    (∃ m, check_data_availability caseDS "q" none none none = .error (.valueError m) ∧
      strHasSub m (pyStrListRepr (caseDS.data_vars.map Prod.fst)) = true)
  ∧ (∃ m, check_data_availability caseDS "t" (some 700) none none = .error (.valueError m) ∧
      strHasSub m (pyQListRepr [850, 500]) = true) := by
  constructor
  · obtain ⟨h1, h2, h3⟩ :=
      (check_data_availability_lists_alternatives caseDS).1 "q" none none none (by decide)
    exact ⟨_, h1, h2⟩
  · obtain ⟨h1, h2⟩ :=
      (check_data_availability_lists_alternatives caseDS).2 "t" 700 [850, 500] none none
        (by decide) (by decide) (by decide) (by decide)
    exact ⟨_, h1, h2⟩

/-- C5: for a present parameter and level/time selectors that pass their
own checks, a time index outside `[0, N)` (with `N` the length of the time
coordinate) raises an out-of-range error, and a non-integer time index
raises a type error. -/
theorem check_data_availability_time_ind_claim (ds : Dataset) (param : String)
    (level : Option Int) (time : Option String)
    (h : ds.varNames.contains param = true)
    (hlv : checkLevel ds level = .ok ())
    (htm : checkTime ds time = .ok ()) :
    (∀ i : Int, i < 0 ∨ (((ds.coords.lookup "valid_time").getD []).length : Int) ≤ i →
        check_data_availability ds param level time (some (.intV i)) =
          .error (.valueError ("Time index " ++ toString i ++
            " out of range. Valid range: 0 to " ++
            toString ((((ds.coords.lookup "valid_time").getD []).length : Int) - 1))))
  ∧ (∀ v : PyVal, v.isInt = false →
        check_data_availability ds param level time (some v) =
          .error (.typeError ("time_ind must be an integer, got " ++ v.typeName))) := by
  have hc : ¬ ¬ ds.varNames.contains param = true := by rw [h]; simp
  constructor
  · intro i hi
    unfold check_data_availability
    rw [if_neg hc]
    simp only [hlv, htm, checkTimeInd]
    rw [if_pos hi]
  · intro v hv
    cases v with
    | intV i => simp [PyVal.isInt] at hv
    | strV s =>
        unfold check_data_availability
        rw [if_neg hc]
        simp only [hlv, htm, checkTimeInd]
    | floatV q =>
        unfold check_data_availability
        rw [if_neg hc]
        simp only [hlv, htm, checkTimeInd]
    | noneV =>
        unfold check_data_availability
        rw [if_neg hc]
        simp only [hlv, htm, checkTimeInd]

/-- Witness for C5 on `caseDS` (time length 1): index 5 is out of range
and a string-valued index is a type error. -/
theorem check_data_availability_time_ind_claim_witness :
    (∃ m, check_data_availability caseDS "t" (some 850) none (some (.intV 5)) =
        .error (.valueError m))
  ∧ (∃ m, check_data_availability caseDS "t" (some 850) none (some (.strV "0")) =
        .error (.typeError m)) := by
  constructor
  · exact ⟨_, (check_data_availability_time_ind_claim caseDS "t" (some 850) none
      (by decide) (by decide) rfl).1 5 (by decide)⟩
  · exact ⟨_, (check_data_availability_time_ind_claim caseDS "t" (some 850) none
      (by decide) (by decide) rfl).2 (.strV "0") (by decide)⟩

/-- C10: when both `time` and `time_ind` are `None` and the availability
check passes, `write_html` takes no extraction branch, so the later use of
the local `hcross` fails with an unbound-local error rather than producing
a page or a descriptive validation error. -/
theorem write_html_unbound_local_claim (ds : Dataset) (param : String) (level : Option Int)
    (h : check_data_availability ds param level none none = .ok ()) :
    write_html ds param level none none = .error (.unboundLocalError "hcross") := by
  simp [write_html, h]

/-- Witness for C10 at the concrete dataset `caseDS`. -/
theorem write_html_unbound_local_claim_witness :
    write_html caseDS "t" none none none = .error (.unboundLocalError "hcross") :=
  write_html_unbound_local_claim caseDS "t" none (by decide)

/-- C2: `height_to_pressure_hpa` computes
`p0 * (1 - L*z/T0) ^ (g*M/(R*L)) / 100` with the claimed constants after
clamping the height at 0; it is antitone wherever it produces numbers, and
height 0 yields exactly 1000 hPa. -/
theorem height_to_pressure_hpa_claim :
    (∀ z : ℝ, 0 ≤ 1.0 - (0.0065 * max z 0 / 288.15) →
        height_to_pressure_hpa z =
          some (100000.0 * (1.0 - (0.0065 * max z 0 / 288.15)) ^
            (((9.80665 * 0.0289644) / (8.3144598 * 0.0065) : ℝ)) / 100.0))
  ∧ (∀ z : ℝ, z ≤ 0 → height_to_pressure_hpa z = height_to_pressure_hpa 0)
  ∧ (∀ z1 z2 p1 p2 : ℝ, z1 ≤ z2 →
        height_to_pressure_hpa z1 = some p1 → height_to_pressure_hpa z2 = some p2 →
        p2 ≤ p1)
  ∧ height_to_pressure_hpa 0 = some 1000 := by
  have hexp : (0:ℝ) ≤ (9.80665 * 0.0289644) / (8.3144598 * 0.0065) := by positivity
  refine ⟨?_, ?_, ?_, ?_⟩
  · intro z h
    simp only [height_to_pressure_hpa]
    rw [if_neg (not_lt.2 h)]
  · intro z h
    simp only [height_to_pressure_hpa, max_eq_right h, max_self]
  · intro z1 z2 p1 p2 hz h1 h2
    simp only [height_to_pressure_hpa] at h1 h2
    split_ifs at h1 h2 with hb1 hb2
    injection h1 with h1
    injection h2 with h2
    subst h1
    subst h2
    have hb2s : (0:ℝ) ≤ 1.0 - 0.0065 * max z2 0 / 288.15 := not_lt.1 hb2
    have hmax : max z1 0 ≤ max z2 0 := max_le_max hz le_rfl
    have hstep : (0.0065:ℝ) * max z1 0 / 288.15 ≤ 0.0065 * max z2 0 / 288.15 := by
      have hmul : (0.0065:ℝ) * max z1 0 ≤ 0.0065 * max z2 0 := by nlinarith
      exact (div_le_div_iff_of_pos_right (by norm_num : (0:ℝ) < 288.15)).mpr hmul
    have hbase : (1.0:ℝ) - 0.0065 * max z2 0 / 288.15 ≤ 1.0 - 0.0065 * max z1 0 / 288.15 := by
      linarith
    have hpow := Real.rpow_le_rpow hb2s hbase hexp
    linarith [hpow]
  · simp only [height_to_pressure_hpa, max_self]
    rw [if_neg (by norm_num)]
    norm_num

/-- Witness for C2: the formula conjunct applied at height 0, whose clamp
and base are concrete. -/
theorem height_to_pressure_hpa_claim_witness :
    height_to_pressure_hpa 0 =
      some (100000.0 * (1.0 - (0.0065 * max (0:ℝ) 0 / 288.15)) ^
        (((9.80665 * 0.0289644) / (8.3144598 * 0.0065) : ℝ)) / 100.0) :=
  height_to_pressure_hpa_claim.1 0 (by norm_num)

/-- C6: an unsupported display-mode string is rejected immediately with an
explanatory error: no dataset is opened (empty event trace) and no other
work is performed. -/
theorem plot_crosssection_invalid_mode_claim
    (var : String) (lat lon : Int) (casefile climfile : Dataset)
    (field : String) (terrainfile : Option Dataset) (savepath : Option String)
    (h1 : field ≠ "anomaly") (h2 : field ≠ "case") (h3 : field ≠ "clim") :
    plot_crosssection var lat lon casefile climfile field terrainfile savepath =
      (.error (.valueError "field must be one of: \x27anomaly\x27, \x27case\x27, \x27clim\x27."),
       []) := by
  unfold plot_crosssection
  rw [if_pos (by simp [h1, h2, h3])]

/-- Witness for C6 at the concrete mode string "bogus". -/
theorem plot_crosssection_invalid_mode_claim_witness :
    plot_crosssection "t" 0 0 emptyDS emptyDS "bogus" none none =
      (.error (.valueError "field must be one of: \x27anomaly\x27, \x27case\x27, \x27clim\x27."),
       []) :=
  plot_crosssection_invalid_mode_claim "t" 0 0 emptyDS emptyDS "bogus" none none
    (by decide) (by decide) (by decide)

/-- Forward composition: from successful stage outcomes to the full result
of `plot_crosssection`, including the handle trace. -/
theorem plot_eq_of_stages
    (var : String) (lat lon : Int) (casefile climfile : Dataset)
    (field : String) (terrainfile : Option Dataset) (savepath : Option String)
    (m y : Int) (ds_clim : Dataset) (zl zo fld : DataArray) (mt : String)
    (vmin vmax : Int) (cmap : String) (fl fo : DataArray) (lu lou : Int)
    (wind : Option (DataArray × DataArray × DataArray))
    (terrain : Option (List (Int × Int) × List (Int × Int))) (trT : List Event)
    (hfield : field = "anomaly" ∨ field = "case" ∨ field = "clim")
    (hmy : get_case_month_year casefile = .ok (m, y))
    (hclim : climForMonth climfile m = .ok ds_clim)
    (hbc : basicChecks field var (drop_time casefile) ds_clim = .ok ())
    (hbg : background ds_clim lat lon = .ok (zl, zo))
    (hcf : computeField field var (drop_time casefile) ds_clim = .ok (fld, mt))
    (hcs : colorScale mt var fld = .ok (vmin, vmax, cmap))
    (hsec : sections fld lat lon = .ok (fl, fo, lu, lou))
    (hw : windCheck var (drop_time casefile) = .ok wind)
    (ht : terrainStep terrainfile lu lou = (.ok terrain, trT)) :
    plot_crosssection var lat lon casefile climfile field terrainfile savepath =
      (.ok { fld := fld, modeText := mt, vmin := vmin, vmax := vmax, cmap := cmap,
             fldLat := fl, fldLon := fo, latUsed := lu, lonUsed := lou, wind := wind,
             terrain := terrain,
             titleLine := titleLineOf mt m y (pretty_var_name var (drop_time casefile) ds_clim),
             cbLabel := cbLabelOf (pretty_var_name var (drop_time casefile) ds_clim)
               (unitsOf var (drop_time casefile) ds_clim),
             saved := savepath.isSome },
       [Event.openD "case", Event.openD "clim"] ++ trT ++
         [Event.closeD "case", Event.closeD "clim"]) := by
  unfold plot_crosssection
  rw [if_neg (not_not_intro hfield)]
  simp only [hmy, hclim, hbc, hbg, hcf, hcs, hsec, hw, ht]
  rfl

/-- Inverse decomposition: a successful `plot_crosssection` call passed
through every stage, and the result and trace are determined by the stage
outcomes. -/
theorem plot_ok_stages
    (var : String) (lat lon : Int) (casefile climfile : Dataset)
    (field : String) (terrainfile : Option Dataset) (savepath : Option String)
    (r : PlotResult) (tr : List Event)
    (h : plot_crosssection var lat lon casefile climfile field terrainfile savepath =
      (.ok r, tr)) :
    ∃ m y ds_clim zl zo fld mt vmin vmax cmap fl fo lu lou wind terrain trT,
      get_case_month_year casefile = .ok (m, y) ∧
      climForMonth climfile m = .ok ds_clim ∧
      basicChecks field var (drop_time casefile) ds_clim = .ok () ∧
      background ds_clim lat lon = .ok (zl, zo) ∧
      computeField field var (drop_time casefile) ds_clim = .ok (fld, mt) ∧
      colorScale mt var fld = .ok (vmin, vmax, cmap) ∧
      sections fld lat lon = .ok (fl, fo, lu, lou) ∧
      windCheck var (drop_time casefile) = .ok wind ∧
      terrainStep terrainfile lu lou = (.ok terrain, trT) ∧
      r = { fld := fld, modeText := mt, vmin := vmin, vmax := vmax, cmap := cmap,
            fldLat := fl, fldLon := fo, latUsed := lu, lonUsed := lou, wind := wind,
            terrain := terrain,
            titleLine := titleLineOf mt m y (pretty_var_name var (drop_time casefile) ds_clim),
            cbLabel := cbLabelOf (pretty_var_name var (drop_time casefile) ds_clim)
              (unitsOf var (drop_time casefile) ds_clim),
            saved := savepath.isSome } ∧
      tr = [Event.openD "case", Event.openD "clim"] ++ trT ++
        [Event.closeD "case", Event.closeD "clim"] := by
  unfold plot_crosssection at h
  by_cases hfield : ¬ (field = "anomaly" ∨ field = "case" ∨ field = "clim")
  · rw [if_pos hfield] at h
    exact absurd h (by simp)
  · rw [if_neg hfield] at h
    cases hmy : get_case_month_year casefile with
    | error e => simp only [hmy] at h; exact absurd h (by simp)
    | ok my =>
      obtain ⟨m, y⟩ := my
      simp only [hmy] at h
      cases hclim : climForMonth climfile m with
      | error e => simp only [hclim] at h; exact absurd h (by simp)
      | ok ds_clim =>
        simp only [hclim] at h
        cases hbc : basicChecks field var (drop_time casefile) ds_clim with
        | error e => simp only [hbc] at h; exact absurd h (by simp)
        | ok u =>
          obtain ⟨⟩ := u
          simp only [hbc] at h
          cases hbg : background ds_clim lat lon with
          | error e => simp only [hbg] at h; exact absurd h (by simp)
          | ok zz =>
            obtain ⟨zl, zo⟩ := zz
            simp only [hbg] at h
            cases hcf : computeField field var (drop_time casefile) ds_clim with
            | error e => simp only [hcf] at h; exact absurd h (by simp)
            | ok fm =>
              obtain ⟨fld, mt⟩ := fm
              simp only [hcf] at h
              cases hcs : colorScale mt var fld with
              | error e => simp only [hcs] at h; exact absurd h (by simp)
              | ok vvc =>
                obtain ⟨vmin, vmax, cmap⟩ := vvc
                simp only [hcs] at h
                cases hsec : sections fld lat lon with
                | error e => simp only [hsec] at h; exact absurd h (by simp)
                | ok quad =>
                  obtain ⟨fl, fo, lu, lou⟩ := quad
                  simp only [hsec] at h
                  cases hw : windCheck var (drop_time casefile) with
                  | error e => simp only [hw] at h; exact absurd h (by simp)
                  | ok wind =>
                    simp only [hw] at h
                    match ht : terrainStep terrainfile lu lou with
                    | (.error e, trT) =>
                        simp only [ht] at h
                        exact absurd h (by simp)
                    | (.ok terrain, trT) =>
                        simp only [ht] at h
                        injection h with hres htr
                        injection hres with hres
                        exact ⟨m, y, ds_clim, zl, zo, fld, mt, vmin, vmax, cmap, fl, fo,
                          lu, lou, wind, terrain, trT, rfl, hclim, hbc, hbg, hcf, hcs,
                          hsec, rfl, ht, hres.symm, by simpa using htr.symm⟩

theorem load_terrain_lines_ok_events (t : Dataset) (a b : Int)
    (x : List (Int × Int) × List (Int × Int)) (ev : List Event)
    (h : load_terrain_lines t a b = (.ok x, ev)) :
    ev = [Event.openD "terrain", Event.closeD "terrain"] := by
  unfold load_terrain_lines at h
  dsimp only at h
  repeat' split at h
  all_goals simp only [Prod.mk.injEq] at h
  all_goals first
    | exact Except.noConfusion h.1
    | exact h.2.symm

theorem terrainStep_ok_events (tf : Option Dataset) (a b : Int)
    (x : Option (List (Int × Int) × List (Int × Int))) (ev : List Event)
    (h : terrainStep tf a b = (.ok x, ev)) :
    ev = [] ∨ ev = [Event.openD "terrain", Event.closeD "terrain"] := by
  cases tf with
  | none =>
      simp only [terrainStep] at h
      exact Or.inl ((Prod.mk.injEq _ _ _ _).mp h).2.symm
  | some t =>
      simp only [terrainStep] at h
      match hl : load_terrain_lines t a b with
      | (.error e, ev2) =>
          rw [hl] at h
          exact Except.noConfusion ((Prod.mk.injEq _ _ _ _).mp h).1
      | (.ok lines, ev2) =>
          rw [hl] at h
          have h2 := ((Prod.mk.injEq _ _ _ _).mp h).2
          exact Or.inr (h2.symm.trans (load_terrain_lines_ok_events t a b lines ev2 hl))

/-- C9: every call of `plot_crosssection` that returns closes each dataset
handle it opened (case, climatology, and terrain when used) before
returning; no returning path leaves an opened handle open. -/
theorem plot_crosssection_closes_claim
    (var : String) (lat lon : Int) (casefile climfile : Dataset) (field : String)
    (terrainfile : Option Dataset) (savepath : Option String) (r : PlotResult)
    (tr : List Event)
    (h : plot_crosssection var lat lon casefile climfile field terrainfile savepath =
      (.ok r, tr)) :
    ∀ t, Event.openD t ∈ tr → Event.closeD t ∈ tr := by
  obtain ⟨m, y, ds_clim, zl, zo, fld, mt, vmin, vmax, cmap, fl, fo, lu, lou, wind,
    terrain, trT, hmy, hclim, hbc, hbg, hcf, hcs, hsec, hw, ht, hres, htr⟩ :=
    plot_ok_stages var lat lon casefile climfile field terrainfile savepath r tr h
  intro t hopen
  rcases terrainStep_ok_events terrainfile lu lou terrain trT ht with h0 | h0
  · subst h0
    subst htr
    simp at hopen
    rcases hopen with rfl | rfl <;> simp
  · subst h0
    subst htr
    simp at hopen
    rcases hopen with rfl | rfl | rfl <;> simp

/-- Witness for C9: on a successful concrete anomaly plot, the case handle
opened by the call is closed in the trace. -/
theorem plot_crosssection_closes_claim_witness :
    Event.closeD "case" ∈ (plot_crosssection "t" 10 30 caseDS climDS "anomaly" none none).2 := by
  have hres := plot_eq_of_stages "t" 10 30 caseDS climDS "anomaly" none none
    3 2024 climDS3 bgPair.1 bgPair.2 anomFld "ANOMALY" (-810) 810 "coolwarm"
    secQuad.1 secQuad.2.1 10 30 none none []
    (Or.inl rfl) (by decide) rfl rfl rfl rfl (by decide) rfl rfl rfl
  have hcl := plot_crosssection_closes_claim "t" 10 30 caseDS climDS "anomaly" none none
    _ _ hres "case" (by simp)
  rw [congrArg Prod.snd hres]
  exact hcl

theorem computeField_case_mt (var : String) (c2 cl : Dataset) (fld : DataArray)
    (mt : String) (h : computeField "case" var c2 cl = .ok (fld, mt)) :
    mt = "CASE" := by
  unfold computeField at h
  simp only [String.reduceEq, false_and, if_false, if_true, reduceIte] at h
  cases hg : c2.getVar var with
  | none => rw [hg] at h; exact Except.noConfusion h
  | some da =>
      rw [hg] at h
      injection h with h
      exact ((Prod.mk.injEq _ _ _ _).mp h).2.symm

theorem computeField_clim_mt (var : String) (c2 cl : Dataset) (fld : DataArray)
    (mt : String) (h : computeField "clim" var c2 cl = .ok (fld, mt)) :
    mt = "CLIM" := by
  unfold computeField at h
  simp only [String.reduceEq, false_and, if_false, if_true, reduceIte] at h
  cases hg : cl.getVar var with
  | none => rw [hg] at h; exact Except.noConfusion h
  | some da =>
      rw [hg] at h
      injection h with h
      exact ((Prod.mk.injEq _ _ _ _).mp h).2.symm

theorem computeField_anomaly_inv (var : String) (c2 cl : Dataset) (fld : DataArray)
    (mt : String) (ca clA : DataArray) (hv : var ≠ "wspd")
    (hca : c2.data_vars.lookup var = some ca) (hcl : cl.data_vars.lookup var = some clA)
    (h : computeField "anomaly" var c2 cl = .ok (fld, mt)) :
    ca.alignExactOk clA = true ∧ fld = ca.arraySub clA ∧ mt = "ANOMALY" := by
  unfold computeField at h
  rw [if_neg (by simp [hv])] at h
  rw [if_neg (by simp [hv])] at h
  rw [hca, hcl] at h
  dsimp only at h
  by_cases hal : ca.alignExactOk clA
  · rw [if_pos hal] at h
    injection h with h
    have hp := (Prod.mk.injEq _ _ _ _).mp h
    exact ⟨hal, hp.1.symm, hp.2.symm⟩
  · rw [if_neg hal] at h
    exact Except.noConfusion h

theorem computeField_anomaly_align_err (var : String) (c2 cl : Dataset)
    (ca clA : DataArray) (hv : var ≠ "wspd")
    (hca : c2.data_vars.lookup var = some ca) (hcl : cl.data_vars.lookup var = some clA)
    (hal : ca.alignExactOk clA = false) :
    computeField "anomaly" var c2 cl = .error (.valueError alignErrorMsg) := by
  unfold computeField
  rw [if_neg (by simp [hv])]
  rw [if_neg (by simp [hv])]
  rw [hca, hcl]
  dsimp only
  rw [if_neg (by rw [hal]; simp)]

theorem computeField_wspd_redirect (c2 cl : Dataset) :
    computeField "anomaly" "wspd" c2 cl = computeField "case" "wspd" c2 cl := by
  unfold computeField
  simp

theorem colorScale_anomaly_inv (var : String) (fld : DataArray) (vmin vmax : Int)
    (cmap : String) (h : colorScale "ANOMALY" var fld = .ok (vmin, vmax, cmap)) :
    ∃ mn mx, listMin fld.gridVals = some mn ∧ listMax fld.gridVals = some mx ∧
      vmin = -(max |mn| |mx|) ∧ vmax = max |mn| |mx| ∧ cmap = "coolwarm" := by
  unfold colorScale at h
  cases hmn : listMin fld.gridVals with
  | none => rw [hmn] at h; exact Except.noConfusion h
  | some mn =>
      rw [hmn] at h
      cases hmx : listMax fld.gridVals with
      | none => rw [hmx] at h; exact Except.noConfusion h
      | some mx =>
          rw [hmx] at h
          simp only [String.reduceEq, if_true, reduceIte] at h
          injection h with h
          have hp := (Prod.mk.injEq _ _ _ _).mp h
          have hq := (Prod.mk.injEq _ _ _ _).mp hp.2
          exact ⟨mn, mx, rfl, rfl, hp.1.symm, hq.1.symm, hq.2.symm⟩

theorem colorScale_nonanomaly_inv (mt var : String) (fld : DataArray)
    (vmin vmax : Int) (cmap : String) (hmt : mt ≠ "ANOMALY")
    (h : colorScale mt var fld = .ok (vmin, vmax, cmap)) :
    ∃ mx, listMax fld.gridVals = some mx ∧ vmin = 0 ∧ vmax = mx ∧
      cmap = (if var = "wspd" then "Blues" else "viridis") := by
  unfold colorScale at h
  cases hmn : listMin fld.gridVals with
  | none => rw [hmn] at h; exact Except.noConfusion h
  | some mn =>
      rw [hmn] at h
      cases hmx : listMax fld.gridVals with
      | none => rw [hmx] at h; exact Except.noConfusion h
      | some mx =>
          rw [hmx] at h
          dsimp only at h
          rw [if_neg hmt] at h
          injection h with h
          have hp := (Prod.mk.injEq _ _ _ _).mp h
          have hq := (Prod.mk.injEq _ _ _ _).mp hp.2
          exact ⟨mx, rfl, hp.1.symm, hq.1.symm, hq.2.symm⟩

theorem computeField_anomaly_mt (var : String) (c2 cl : Dataset) (fld : DataArray)
    (mt : String) (hv : var ≠ "wspd")
    (h : computeField "anomaly" var c2 cl = .ok (fld, mt)) : mt = "ANOMALY" := by
  unfold computeField at h
  rw [if_neg (by simp [hv])] at h
  rw [if_neg (by simp [hv])] at h
  cases h1 : c2.data_vars.lookup var with
  | none => rw [h1] at h; dsimp only at h; exact Except.noConfusion h
  | some ca =>
      rw [h1] at h
      cases h2 : cl.data_vars.lookup var with
      | none => rw [h2] at h; dsimp only at h; exact Except.noConfusion h
      | some clA =>
          rw [h2] at h
          dsimp only at h
          by_cases hal : ca.alignExactOk clA
          · rw [if_pos hal] at h
            injection h with h
            exact ((Prod.mk.injEq _ _ _ _).mp h).2.symm
          · rw [if_neg hal] at h
            exact Except.noConfusion h

/-- C7: the color normalization of the plotted field is symmetric about
zero (bounded by the larger of `|min|` and `|max|` of the resulting field,
palette `coolwarm`) in anomaly mode, and zero-based up to the field maximum
in case and climatology modes, with the `Blues` palette exactly for the
wind-speed variable and `viridis` for all others. -/
theorem plot_crosssection_color_policy
    (var : String) (lat lon : Int) (casefile climfile : Dataset) (field : String)
    (terrainfile : Option Dataset) (savepath : Option String) (r : PlotResult)
    (tr : List Event)
    (h : plot_crosssection var lat lon casefile climfile field terrainfile savepath =
      (.ok r, tr)) :
    (field = "anomaly" → var ≠ "wspd" →
      ∃ mn mx, listMin r.fld.gridVals = some mn ∧ listMax r.fld.gridVals = some mx ∧
        r.vmin = -(max |mn| |mx|) ∧ r.vmax = max |mn| |mx| ∧ r.cmap = "coolwarm")
  ∧ ((field = "case" ∨ field = "clim") →
      ∃ mx, listMax r.fld.gridVals = some mx ∧ r.vmin = 0 ∧ r.vmax = mx ∧
        r.cmap = (if var = "wspd" then "Blues" else "viridis")) := by
  obtain ⟨m, y, ds_clim, zl, zo, fld, mt, vmin, vmax, cmap, fl, fo, lu, lou, wind,
    terrain, trT, hmy, hclim, hbc, hbg, hcf, hcs, hsec, hw, ht, hres, htr⟩ :=
    plot_ok_stages var lat lon casefile climfile field terrainfile savepath r tr h
  subst hres
  constructor
  · intro hf hv
    subst hf
    have hmt := computeField_anomaly_mt var (drop_time casefile) ds_clim fld mt hv hcf
    subst hmt
    obtain ⟨mn, mx, e1, e2, e3, e4, e5⟩ := colorScale_anomaly_inv var fld vmin vmax cmap hcs
    exact ⟨mn, mx, e1, e2, by simp [e3], by simp [e4], by simp [e5]⟩
  · intro hf
    have hmt : mt ≠ "ANOMALY" := by
      rcases hf with hf | hf <;> subst hf
      · rw [computeField_case_mt var (drop_time casefile) ds_clim fld mt hcf]
        decide
      · rw [computeField_clim_mt var (drop_time casefile) ds_clim fld mt hcf]
        decide
    obtain ⟨mx, e1, e2, e3, e4⟩ := colorScale_nonanomaly_inv mt var fld vmin vmax cmap hmt hcs
    exact ⟨mx, e1, by simp [e2], by simp [e3], by simp [e4]⟩

/-- Witness for C7: the concrete anomaly plot of variable `t` carries the
symmetric scale and the `coolwarm` palette. -/
theorem plot_crosssection_color_policy_witness :
    ∃ r tr mn mx,
      plot_crosssection "t" 10 30 caseDS climDS "anomaly" none none = (Except.ok r, tr) ∧
      listMin r.fld.gridVals = some mn ∧ listMax r.fld.gridVals = some mx ∧
      r.vmin = -(max |mn| |mx|) ∧ r.vmax = max |mn| |mx| ∧ r.cmap = "coolwarm" := by
  have hres := plot_eq_of_stages "t" 10 30 caseDS climDS "anomaly" none none
    3 2024 climDS3 bgPair.1 bgPair.2 anomFld "ANOMALY" (-810) 810 "coolwarm"
    secQuad.1 secQuad.2.1 10 30 none none []
    (Or.inl rfl) (by decide) rfl rfl rfl rfl (by decide) rfl rfl rfl
  obtain ⟨mn, mx, e1, e2, e3, e4, e5⟩ :=
    (plot_crosssection_color_policy "t" 10 30 caseDS climDS "anomaly" none none
      _ _ hres).1 rfl (by decide)
  exact ⟨_, _, mn, mx, hres, e1, e2, e3, e4, e5⟩

theorem basicChecks_case_missing (field var : String) (c2 cl : Dataset)
    (hf : field = "case" ∨ field = "anomaly") (hm : c2.mem var = false) :
    basicChecks field var c2 cl =
      .error (.keyError ("\x27" ++ var ++ "\x27 not found in case file.")) := by
  unfold basicChecks
  rw [if_pos ⟨hf, by rw [hm]; simp⟩]

theorem basicChecks_clim_missing (field var : String) (c2 cl : Dataset)
    (hf : field = "clim" ∨ (field = "anomaly" ∧ c2.mem var = true))
    (hm : cl.mem var = false) :
    basicChecks field var c2 cl =
      .error (.keyError ("\x27" ++ var ++
        "\x27 not found in climatology file (needed for field=\x27" ++ field ++ "\x27).")) := by
  unfold basicChecks
  have hnot : ¬ ((field = "case" ∨ field = "anomaly") ∧ ¬ c2.mem var = true) := by
    rcases hf with hf | ⟨hf, hmem⟩
    · subst hf
      rintro ⟨hor, -⟩
      rcases hor with hc | hc <;> exact absurd hc (by decide)
    · rintro ⟨-, hno⟩
      exact hno hmem
  rw [if_neg hnot]
  have hfa : field = "clim" ∨ field = "anomaly" := by
    rcases hf with hf | ⟨hf, -⟩
    · exact Or.inl hf
    · exact Or.inr hf
  rw [if_pos ⟨hfa, by rw [hm]; simp⟩]

theorem plot_err_at_checks
    (var : String) (lat lon : Int) (casefile climfile : Dataset) (field : String)
    (terrainfile : Option Dataset) (savepath : Option String) (m y : Int)
    (ds_clim : Dataset) (e : PyErr)
    (hfield : field = "anomaly" ∨ field = "case" ∨ field = "clim")
    (hmy : get_case_month_year casefile = .ok (m, y))
    (hclim : climForMonth climfile m = .ok ds_clim)
    (hbc : basicChecks field var (drop_time casefile) ds_clim = .error e) :
    plot_crosssection var lat lon casefile climfile field terrainfile savepath =
      (.error e, [Event.openD "case", Event.openD "clim"]) := by
  unfold plot_crosssection
  rw [if_neg (not_not_intro hfield)]
  simp only [hmy, hclim, hbc]
  rfl

/-- C3 (amended): a variable absent from the dataset the selected mode
requires makes `plot_crosssection` fail with an error naming the variable;
for the climatology file (modes clim/anomaly) the message also names the
selected mode, while for the case file (modes case/anomaly) the message
names the case file — which names the mode only when the mode is "case",
not under "anomaly". -/
theorem plot_crosssection_missing_var_claim
    (var : String) (lat lon : Int) (casefile climfile : Dataset) (field : String)
    (terrainfile : Option Dataset) (savepath : Option String) (m y : Int)
    (ds_clim : Dataset)
    (hmy : get_case_month_year casefile = .ok (m, y))
    (hclim : climForMonth climfile m = .ok ds_clim) :
    ((field = "case" ∨ field = "anomaly") → (drop_time casefile).mem var = false →
       plot_crosssection var lat lon casefile climfile field terrainfile savepath =
         (.error (.keyError ("\x27" ++ var ++ "\x27 not found in case file.")),
          [Event.openD "case", Event.openD "clim"]) ∧
       strHasSub ("\x27" ++ var ++ "\x27 not found in case file.") var = true ∧
       strHasSub ("\x27" ++ var ++ "\x27 not found in case file.") "case" = true)
  ∧ ((field = "clim" ∨ (field = "anomaly" ∧ (drop_time casefile).mem var = true)) →
       ds_clim.mem var = false →
       plot_crosssection var lat lon casefile climfile field terrainfile savepath =
         (.error (.keyError ("\x27" ++ var ++
            "\x27 not found in climatology file (needed for field=\x27" ++ field ++ "\x27).")),
          [Event.openD "case", Event.openD "clim"]) ∧
       strHasSub ("\x27" ++ var ++
          "\x27 not found in climatology file (needed for field=\x27" ++ field ++ "\x27).")
         var = true ∧
       strHasSub ("\x27" ++ var ++
          "\x27 not found in climatology file (needed for field=\x27" ++ field ++ "\x27).")
         field = true) := by
  constructor
  · intro hf hm
    have hfield : field = "anomaly" ∨ field = "case" ∨ field = "clim" := by
      rcases hf with hf | hf
      · exact Or.inr (Or.inl hf)
      · exact Or.inl hf
    refine ⟨plot_err_at_checks var lat lon casefile climfile field terrainfile savepath
        m y ds_clim _ hfield hmy hclim
        (basicChecks_case_missing field var (drop_time casefile) ds_clim hf hm), ?_, ?_⟩
    · exact strHasSub_sandwich "\x27" var "\x27 not found in case file."
    · exact strHasSub_extend_left ("\x27" ++ var) "\x27 not found in case file." "case"
        (by decide)
  · intro hf hm
    have hfield : field = "anomaly" ∨ field = "case" ∨ field = "clim" := by
      rcases hf with hf | ⟨hf, -⟩
      · exact Or.inr (Or.inr hf)
      · exact Or.inl hf
    refine ⟨plot_err_at_checks var lat lon casefile climfile field terrainfile savepath
        m y ds_clim _ hfield hmy hclim
        (basicChecks_clim_missing field var (drop_time casefile) ds_clim hf hm), ?_, ?_⟩
    · have h0 := strHasSub_sandwich "\x27" var
        "\x27 not found in climatology file (needed for field=\x27"
      have h1 := strHasSub_extend_right _ field _ h0
      exact strHasSub_extend_right _ "\x27)." _ h1
    · exact strHasSub_sandwich
        ("\x27" ++ var ++ "\x27 not found in climatology file (needed for field=\x27")
        field "\x27)."

/-- C3 counterexample: under mode "anomaly" with the variable missing from
the case file, the failure message does not name the selected mode. -/
theorem plot_crosssection_missing_var_counterexample :
    (plot_crosssection "t" 10 30 caseNoT climDS "anomaly" none none).1 =
      Except.error (PyErr.keyError "\x27t\x27 not found in case file.") ∧
    strHasSub "\x27t\x27 not found in case file." "anomaly" = false :=
  ⟨rfl, by decide⟩

/-- Witness for the amended C3 on a concrete climatology-mode call. -/
theorem plot_crosssection_missing_var_claim_witness :
    plot_crosssection "q" 10 30 caseDS climDS "clim" none none =
      (.error (.keyError "\x27q\x27 not found in climatology file (needed for field=\x27clim\x27)."),
       [Event.openD "case", Event.openD "clim"]) ∧
    strHasSub "\x27q\x27 not found in climatology file (needed for field=\x27clim\x27)."
      "clim" = true := by
  have h := (plot_crosssection_missing_var_claim "q" 10 30 caseDS climDS "clim" none none
    3 2024 climDS3 (by decide) rfl).2 (Or.inl rfl) (by decide)
  exact ⟨h.1, h.2.2⟩

theorem mem_keys_of_lookup {α : Type} (l : List (String × α)) (k : String) (v : α)
    (h : l.lookup k = some v) : k ∈ l.map Prod.fst := by
  induction l with
  | nil => simp [List.lookup] at h
  | cons p rest ih =>
    simp only [List.lookup] at h
    cases hbeq : k == p.1 with
    | true =>
        have : k = p.1 := by simpa using hbeq
        simp [this]
    | false =>
        rw [hbeq] at h
        simp only [List.map_cons, List.mem_cons]
        exact Or.inr (ih h)

theorem Dataset_mem_of_lookup (ds : Dataset) (v : String) (da : DataArray)
    (h : ds.data_vars.lookup v = some da) : ds.mem v = true := by
  have hk := mem_keys_of_lookup ds.data_vars v da h
  unfold Dataset.mem Dataset.varNames
  simp [hk]

theorem basicChecks_anomaly_ok (var : String) (c2 cl : Dataset)
    (h1 : c2.mem var = true) (h2 : cl.mem var = true) :
    basicChecks "anomaly" var c2 cl = .ok () := by
  unfold basicChecks
  rw [if_neg (by simp [h1]), if_neg (by simp [h2])]

theorem basicChecks_case_ok (var : String) (c2 cl : Dataset)
    (h1 : c2.mem var = true) :
    basicChecks "case" var c2 cl = .ok () := by
  unfold basicChecks
  rw [if_neg (by simp [h1]),
    if_neg (by rintro ⟨hor, -⟩; rcases hor with hc | hc <;> exact absurd hc (by decide))]

theorem basicChecks_anomaly_ok_inv (var : String) (c2 cl : Dataset)
    (h : basicChecks "anomaly" var c2 cl = .ok ()) :
    c2.mem var = true ∧ cl.mem var = true := by
  unfold basicChecks at h
  by_cases h1 : c2.mem var = true
  · by_cases h2 : cl.mem var = true
    · exact ⟨h1, h2⟩
    · rw [if_neg (by simp [h1]), if_pos ⟨Or.inr rfl, h2⟩] at h
      exact Except.noConfusion h
  · rw [if_pos ⟨Or.inr rfl, h1⟩] at h
    exact Except.noConfusion h

theorem computeField_anomaly_ok_inv (var : String) (c2 cl : Dataset) (fld : DataArray)
    (mt : String) (hv : var ≠ "wspd")
    (h : computeField "anomaly" var c2 cl = .ok (fld, mt)) :
    ∃ ca clA, c2.data_vars.lookup var = some ca ∧ cl.data_vars.lookup var = some clA ∧
      ca.alignExactOk clA = true ∧ fld = ca.arraySub clA ∧ mt = "ANOMALY" := by
  unfold computeField at h
  rw [if_neg (by simp [hv])] at h
  rw [if_neg (by simp [hv])] at h
  cases h1 : c2.data_vars.lookup var with
  | none => rw [h1] at h; dsimp only at h; exact Except.noConfusion h
  | some ca =>
      rw [h1] at h
      cases h2 : cl.data_vars.lookup var with
      | none => rw [h2] at h; dsimp only at h; exact Except.noConfusion h
      | some clA =>
          rw [h2] at h
          dsimp only at h
          by_cases hal : ca.alignExactOk clA
          · rw [if_pos hal] at h
            injection h with h
            have hp := (Prod.mk.injEq _ _ _ _).mp h
            exact ⟨ca, clA, rfl, rfl, hal, hp.1.symm, hp.2.symm⟩
          · rw [if_neg hal] at h
            exact Except.noConfusion h

theorem plot_err_after_background
    (var : String) (lat lon : Int) (casefile climfile : Dataset) (field : String)
    (terrainfile : Option Dataset) (savepath : Option String) (m y : Int)
    (ds_clim : Dataset) (zl zo : DataArray) (e : PyErr)
    (hfield : field = "anomaly" ∨ field = "case" ∨ field = "clim")
    (hmy : get_case_month_year casefile = .ok (m, y))
    (hclim : climForMonth climfile m = .ok ds_clim)
    (hbc : basicChecks field var (drop_time casefile) ds_clim = .ok ())
    (hbg : background ds_clim lat lon = .ok (zl, zo))
    (hcf : computeField field var (drop_time casefile) ds_clim = .error e) :
    (plot_crosssection var lat lon casefile climfile field terrainfile savepath).1 =
      .error e := by
  unfold plot_crosssection
  rw [if_neg (not_not_intro hfield)]
  simp only [hmy, hclim, hbc, hbg, hcf]

/-- C1: in anomaly mode, for a variable other than `wspd`, the plotted
field is exactly the elementwise difference between the case field (time
axis dropped) and the climatology field at the case month, after exact
alignment of the shared coordinate axes — an alignment mismatch is a fatal
error; for `wspd`, anomaly mode produces the very same result as case
mode. -/
theorem plot_crosssection_anomaly_claim
    (var : String) (lat lon : Int) (casefile climfile : Dataset)
    (terrainfile : Option Dataset) (savepath : Option String) :
    (var ≠ "wspd" →
      (∀ r tr,
        plot_crosssection var lat lon casefile climfile "anomaly" terrainfile savepath =
          (.ok r, tr) →
        ∃ m y ds_clim ca cl,
          get_case_month_year casefile = .ok (m, y) ∧
          climForMonth climfile m = .ok ds_clim ∧
          (drop_time casefile).data_vars.lookup var = some ca ∧
          ds_clim.data_vars.lookup var = some cl ∧
          ca.alignExactOk cl = true ∧
          r.fld = ca.arraySub cl ∧
          (∀ f, r.fld.vals f = ca.vals f - cl.vals f))
      ∧ (∀ m y ds_clim ca cl zl zo,
          get_case_month_year casefile = .ok (m, y) →
          climForMonth climfile m = .ok ds_clim →
          (drop_time casefile).data_vars.lookup var = some ca →
          ds_clim.data_vars.lookup var = some cl →
          background ds_clim lat lon = .ok (zl, zo) →
          ca.alignExactOk cl = false →
          (plot_crosssection var lat lon casefile climfile "anomaly" terrainfile
            savepath).1 = .error (.valueError alignErrorMsg)))
  ∧ (var = "wspd" →
      ∀ r tr,
        plot_crosssection var lat lon casefile climfile "anomaly" terrainfile savepath =
          (.ok r, tr) →
        plot_crosssection var lat lon casefile climfile "case" terrainfile savepath =
          (.ok r, tr)) := by
  constructor
  · intro hv
    constructor
    · intro r tr h
      obtain ⟨m, y, ds_clim, zl, zo, fld, mt, vmin, vmax, cmap, fl, fo, lu, lou, wind,
        terrain, trT, hmy, hclim, hbc, hbg, hcf, hcs, hsec, hw, ht, hres, htr⟩ :=
        plot_ok_stages var lat lon casefile climfile "anomaly" terrainfile savepath r tr h
      obtain ⟨ca, clA, l1, l2, hal, hfld, hmt⟩ :=
        computeField_anomaly_ok_inv var (drop_time casefile) ds_clim fld mt hv hcf
      subst hres
      refine ⟨m, y, ds_clim, ca, clA, hmy, hclim, l1, l2, hal, by simpa using hfld, ?_⟩
      intro f
      show fld.vals f = ca.vals f - clA.vals f
      rw [hfld]
      rfl
    · intro m y ds_clim ca clA zl zo hmy hclim l1 l2 hbg hal
      have hbc := basicChecks_anomaly_ok var (drop_time casefile) ds_clim
        (Dataset_mem_of_lookup (drop_time casefile) var ca l1)
        (Dataset_mem_of_lookup ds_clim var clA l2)
      have hcf := computeField_anomaly_align_err var (drop_time casefile) ds_clim
        ca clA hv l1 l2 hal
      exact plot_err_after_background var lat lon casefile climfile "anomaly" terrainfile
        savepath m y ds_clim zl zo _ (Or.inl rfl) hmy hclim hbc hbg hcf
  · intro hvar r tr h
    subst hvar
    obtain ⟨m, y, ds_clim, zl, zo, fld, mt, vmin, vmax, cmap, fl, fo, lu, lou, wind,
      terrain, trT, hmy, hclim, hbc, hbg, hcf, hcs, hsec, hw, ht, hres, htr⟩ :=
      plot_ok_stages "wspd" lat lon casefile climfile "anomaly" terrainfile savepath r tr h
    have hmem := basicChecks_anomaly_ok_inv "wspd" (drop_time casefile) ds_clim hbc
    have hbcC := basicChecks_case_ok "wspd" (drop_time casefile) ds_clim hmem.1
    have hcfC : computeField "case" "wspd" (drop_time casefile) ds_clim = .ok (fld, mt) :=
      computeField_wspd_redirect (drop_time casefile) ds_clim ▸ hcf
    have hplot := plot_eq_of_stages "wspd" lat lon casefile climfile "case" terrainfile
      savepath m y ds_clim zl zo fld mt vmin vmax cmap fl fo lu lou wind terrain trT
      (Or.inr (Or.inl rfl)) hmy hclim hbcC hbg hcfC hcs hsec hw ht
    rw [hres, htr]
    exact hplot

/-- Witness for C1: the concrete anomaly plot of `t` evaluates, at the
all-100 coordinate assignment, to the case value minus the climatology
value. -/
theorem plot_crosssection_anomaly_claim_witness :
    ∃ r tr,
      plot_crosssection "t" 10 30 caseDS climDS "anomaly" none none = (Except.ok r, tr) ∧
      r.fld.vals (fun _ => 100) = 100 := by
  have hres := plot_eq_of_stages "t" 10 30 caseDS climDS "anomaly" none none
    3 2024 climDS3 bgPair.1 bgPair.2 anomFld "ANOMALY" (-810) 810 "coolwarm"
    secQuad.1 secQuad.2.1 10 30 none none []
    (Or.inl rfl) (by decide) rfl rfl rfl rfl (by decide) rfl rfl rfl
  obtain ⟨m, y, dsc, ca, clA, hmy, hclim, l1, l2, hal, hfld, hvals⟩ :=
    ((plot_crosssection_anomaly_claim "t" 10 30 caseDS climDS none none).1
      (by decide)).1 _ _ hres
  refine ⟨_, _, hres, ?_⟩
  rw [hvals (fun _ => 100)]
  have hmy0 : (m, y) = ((3 : Int), (2024 : Int)) := by
    have := hmy.symm.trans (show get_case_month_year caseDS = .ok (3, 2024) by decide)
    exact Except.ok.inj this
  have hm : m = 3 := (Prod.mk.injEq _ _ _ _).mp hmy0 |>.1
  subst hm
  have hdsc : dsc = climDS3 := by
    have := hclim.symm.trans (show climForMonth climDS 3 = .ok climDS3 from rfl)
    exact Except.ok.inj this
  subst hdsc
  have hca : ca = caseT2 := by
    have := l1.symm.trans (show (drop_time caseDS).data_vars.lookup "t" = some caseT2 from rfl)
    exact Option.some.inj this
  have hclA : clA = climT3 := by
    have := l2.symm.trans (show climDS3.data_vars.lookup "t" = some climT3 from rfl)
    exact Option.some.inj this
  subst hca
  subst hclA
  decide
